import Mathlib

/-!
Verification of the TOC/TOD calculator core (unit conversion, flight-profile
calculation, airport lookup) against its specification.

JavaScript numbers are modelled by an extended-rational type: a finite value
carries an exact rational, and the special values NaN and signed Infinity are
explicit constructors.  Arithmetic on finite values is exact rational
arithmetic; arithmetic involving the special values follows the IEEE-754
contagion rules that JavaScript uses (NaN propagates, infinity times zero is
NaN, a nonzero finite number divided by zero is a signed infinity, and so on).
The trigonometric operations of the Math object are kept abstract as a
structure of operations, since the calculator is correct for any
interpretation of them.
-/

namespace TocTod

/-- A JavaScript number: an exact finite rational, NaN, or a signed infinity
(the Boolean is true for positive infinity). -/
inductive JsNum where
  | fin (q : ℚ)
  | nan
  | inf (pos : Bool)
deriving DecidableEq

namespace JsNum

/-- The JavaScript isFinite test. -/
def isFinite : JsNum → Bool
  | fin _ => true
  | nan => false
  | inf _ => false

/-- Unary negation. -/
def neg : JsNum → JsNum
  | fin q => fin (-q)
  | nan => nan
  | inf p => inf (!p)

/-- IEEE addition: NaN propagates, opposite infinities give NaN. -/
def add : JsNum → JsNum → JsNum
  | fin a, fin b => fin (a + b)
  | nan, _ => nan
  | _, nan => nan
  | inf p, fin _ => inf p
  | fin _, inf p => inf p
  | inf p, inf q => if p = q then inf p else nan

/-- IEEE subtraction, defined as addition of the negation. -/
def sub (a b : JsNum) : JsNum := add a (neg b)

/-- IEEE multiplication: NaN propagates, infinity times zero is NaN,
otherwise signs multiply. -/
def mul : JsNum → JsNum → JsNum
  | fin a, fin b => fin (a * b)
  | nan, _ => nan
  | _, nan => nan
  | inf p, fin b => if b = 0 then nan else inf (p == decide (0 < b))
  | fin a, inf p => if a = 0 then nan else inf (p == decide (0 < a))
  | inf p, inf q => inf (p == q)

/-- IEEE division: zero over zero and infinity over infinity are NaN, a
nonzero finite value over zero is a signed infinity (the model has only an
unsigned, positive zero), a finite value over infinity is zero. -/
def div : JsNum → JsNum → JsNum
  | fin a, fin b =>
      if b = 0 then (if a = 0 then nan else inf (decide (0 < a))) else fin (a / b)
  | nan, _ => nan
  | _, nan => nan
  | inf p, fin b => inf (p == decide (0 ≤ b))
  | fin _, inf _ => fin 0
  | inf _, inf _ => nan

instance : Neg JsNum := ⟨neg⟩
instance : Add JsNum := ⟨add⟩
instance : Sub JsNum := ⟨sub⟩
instance : Mul JsNum := ⟨mul⟩
instance : Div JsNum := ⟨div⟩

/-- Math.round: round half toward positive infinity on finite values; NaN and
the infinities are returned unchanged. -/
def roundJs : JsNum → JsNum
  | fin q => fin ((⌊q + 1/2⌋ : ℤ) : ℚ)
  | nan => nan
  | inf p => inf p

/-- Squaring, modelling the JavaScript exponentiation x ** 2. -/
def sq (x : JsNum) : JsNum := x * x

/-- Strict negativity of a JavaScript number (false on NaN). -/
def isNeg : JsNum → Bool
  | fin q => decide (q < 0)
  | nan => false
  | inf p => !p

/-- The JavaScript truthiness coercion v or-else 0 on numbers: zero and NaN
are falsy and replaced by zero, everything else is kept. -/
def orZeroFalsy : JsNum → JsNum
  | fin q => if q = 0 then fin 0 else fin q
  | nan => fin 0
  | inf p => inf p

end JsNum

open JsNum

/-- The speed units supported by the converter. -/
inductive SpeedUnit where
  | kt
  | mph
  | kmh
deriving DecidableEq

/-- The vertical-rate units supported by the converter. -/
inductive RateUnit where
  | ftmin
  | ms
deriving DecidableEq

/-- The toKnots factor table of convertSpeed. -/
def toKnots : SpeedUnit → JsNum
  | .kt => fin 1
  | .mph => fin (868976 / 1000000)
  | .kmh => fin (539957 / 1000000)

/-- The fromKnots factor table of convertSpeed. -/
def fromKnots : SpeedUnit → JsNum
  | .kt => fin 1
  | .mph => fin (115078 / 100000)
  | .kmh => fin (1852 / 1000)

/-- convertSpeed from App.tsx: multiply by the to-base and from-base factors,
then guard a non-finite result to zero. -/
def convertSpeed (value : JsNum) (f t : SpeedUnit) : JsNum :=
  let result := value * toKnots f * fromKnots t
  if result.isFinite then result else fin 0

/-- convertRate from App.tsx: identical units short-circuit to the input,
otherwise multiply by the fixed factor and guard a non-finite result to
zero. -/
def convertRate (value : JsNum) (f t : RateUnit) : JsNum :=
  if f = t then value
  else
    let result :=
      if f = RateUnit.ftmin ∧ t = RateUnit.ms then value * fin (508 / 100000)
      else value * fin (19685 / 100)
    if result.isFinite then result else fin 0

/-- A geographic position in decimal degrees. -/
structure Coordinates where
  lat : JsNum
  lon : JsNum
deriving DecidableEq

/-- The Airport record kept in App state after a successful lookup. -/
structure Airport where
  icao : String
  elevation : JsNum
  name : Option String
  city : Option String
  state : Option String
  coordinates : Option Coordinates
deriving DecidableEq

/-- The numeric and identifier form fields of the App; numeric fields may be
absent (null), identifiers are strings. -/
structure FlightInputs where
  cruiseAltitude : Option JsNum
  climbSpeed : Option JsNum
  cruiseSpeed : Option JsNum
  descentSpeed : Option JsNum
  climbRate : Option JsNum
  descentRate : Option JsNum
  departureIcao : String
  arrivalIcao : String
deriving DecidableEq

/-- The result record produced by calculateResults. -/
structure CalculationResult where
  tocDistance : JsNum
  todDistance : JsNum
  totalDistance : JsNum
  climbTime : JsNum
  cruiseTime : JsNum
  descentTime : JsNum
  totalTime : JsNum
deriving DecidableEq

/-- The operations of the JavaScript Math object used by the calculator,
kept abstract: the calculator is verified for every interpretation of pi,
sin, cos, asin and sqrt. -/
structure MathOps where
  pi : JsNum
  sin : JsNum → JsNum
  cos : JsNum → JsNum
  asin : JsNum → JsNum
  sqrt : JsNum → JsNum

/-- The component state that calculateResults closes over. -/
structure AppState where
  speedUnit : SpeedUnit
  rateUnit : RateUnit
  inputs : FlightInputs
  departure : Option Airport
  arrival : Option Airport

/-- The elevation access with default: departure-or-arrival elevation, or 0
when the airport is unknown; a present elevation goes through the JavaScript
or-else-zero coercion. -/
def elevOrZero : Option Airport → JsNum
  | none => fin 0
  | some a => a.elevation.orZeroFalsy

/-- The optional-chain access to an airport coordinates field. -/
def coordsOf : Option Airport → Option Coordinates
  | none => none
  | some a => a.coordinates

/-- The climb speed converted to knots (App.tsx line 91). -/
def climbSpeedKt (s : AppState) : JsNum :=
  convertSpeed (s.inputs.climbSpeed.getD (fin 0)) s.speedUnit SpeedUnit.kt

/-- The cruise speed converted to knots (App.tsx line 92). -/
def cruiseSpeedKt (s : AppState) : JsNum :=
  convertSpeed (s.inputs.cruiseSpeed.getD (fin 0)) s.speedUnit SpeedUnit.kt

/-- The descent speed converted to knots (App.tsx line 97). -/
def descentSpeedKt (s : AppState) : JsNum :=
  convertSpeed (s.inputs.descentSpeed.getD (fin 0)) s.speedUnit SpeedUnit.kt

/-- The climb rate converted to feet per minute (App.tsx line 104). -/
def climbRateFtMin (s : AppState) : JsNum :=
  convertRate (s.inputs.climbRate.getD (fin 0)) s.rateUnit RateUnit.ftmin

/-- The descent rate converted to feet per minute (App.tsx line 109). -/
def descentRateFtMin (s : AppState) : JsNum :=
  convertRate (s.inputs.descentRate.getD (fin 0)) s.rateUnit RateUnit.ftmin

/-- Climb height: cruise altitude minus departure elevation (App.tsx 116). -/
def climbHeight (s : AppState) : JsNum :=
  s.inputs.cruiseAltitude.getD (fin 0) - elevOrZero s.departure

/-- Climb time in hours (App.tsx line 118). -/
def climbTimeHours (s : AppState) : JsNum :=
  climbHeight s / (climbRateFtMin s * fin 60)

/-- Top-of-climb distance (App.tsx line 119). -/
def tocDistance (s : AppState) : JsNum :=
  climbSpeedKt s * climbTimeHours s

/-- Descent height: cruise altitude minus arrival elevation (App.tsx 122). -/
def descentHeight (s : AppState) : JsNum :=
  s.inputs.cruiseAltitude.getD (fin 0) - elevOrZero s.arrival

/-- Descent time in hours (App.tsx line 124). -/
def descentTimeHours (s : AppState) : JsNum :=
  descentHeight s / (descentRateFtMin s * fin 60)

/-- Top-of-descent distance (App.tsx line 125). -/
def todDistance (s : AppState) : JsNum :=
  descentSpeedKt s * descentTimeHours s

/-- Total distance (App.tsx lines 127 to 147): the haversine great-circle
distance with Earth radius 3440.065 nautical miles when both coordinate sets
are available, else top-of-climb plus top-of-descent plus a 100 nautical-mile
padding. -/
def totalDistance (M : MathOps) (s : AppState) : JsNum :=
  match coordsOf s.departure, coordsOf s.arrival with
  | some dep, some arr =>
      let R := fin (3440065 / 1000)
      let lat1 := dep.lat * M.pi / fin 180
      let lon1 := dep.lon * M.pi / fin 180
      let lat2 := arr.lat * M.pi / fin 180
      let lon2 := arr.lon * M.pi / fin 180
      let dlon := lon2 - lon1
      let dlat := lat2 - lat1
      let a := sq (M.sin (dlat / fin 2)) + M.cos lat1 * M.cos lat2 * sq (M.sin (dlon / fin 2))
      let c := fin 2 * M.asin (M.sqrt a)
      R * c
  | _, _ => tocDistance s + todDistance s + fin 100

/-- Cruise distance (App.tsx line 150). -/
def cruiseDistance (M : MathOps) (s : AppState) : JsNum :=
  totalDistance M s - (tocDistance s + todDistance s)

/-- Cruise time in hours (App.tsx line 151). -/
def cruiseTimeHours (M : MathOps) (s : AppState) : JsNum :=
  cruiseDistance M s / cruiseSpeedKt s

/-- calculateResults from App.tsx (lines 89 to 164): the rounded result
record. -/
def calculateResults (M : MathOps) (s : AppState) : CalculationResult :=
  { tocDistance := roundJs (tocDistance s * fin 10) / fin 10
    todDistance := roundJs (todDistance s * fin 10) / fin 10
    totalDistance := roundJs (totalDistance M s * fin 10) / fin 10
    climbTime := roundJs (climbTimeHours s * fin 60)
    cruiseTime := roundJs (cruiseTimeHours M s * fin 60)
    descentTime := roundJs (descentTimeHours s * fin 60)
    totalTime := roundJs ((climbTimeHours s + cruiseTimeHours M s + descentTimeHours s) * fin 60) }

/-- The haversine great-circle distance as worded by the specification:
convert both positions to radians, apply the haversine formula, and scale by
the Earth radius of 3440.065 nautical miles. -/
def specHaversine (M : MathOps) (dep arr : Coordinates) : JsNum :=
  let lat1 := dep.lat * M.pi / fin 180
  let lon1 := dep.lon * M.pi / fin 180
  let lat2 := arr.lat * M.pi / fin 180
  let lon2 := arr.lon * M.pi / fin 180
  let dlon := lon2 - lon1
  let dlat := lat2 - lat1
  let a := sq (M.sin (dlat / fin 2)) + M.cos lat1 * M.cos lat2 * sq (M.sin (dlon / fin 2))
  let c := fin 2 * M.asin (M.sqrt a)
  fin (3440065 / 1000) * c

/-- The JavaScript toUpperCase on the ASCII strings used as airport codes. -/
def jsToUpper (s : String) : String := ⟨s.data.map Char.toUpper⟩

/-- A record of the airport dataset (data/brazilian-airports.ts). -/
structure BrazilianAirport where
  icao : String
  name : String
  city : String
  iata : String
  state : String
  elevation : JsNum
  lat : JsNum
  lon : JsNum
deriving DecidableEq

/-- The nested elevation view of a lookup result. -/
structure ElevationView where
  feet : JsNum
  meters : JsNum
deriving DecidableEq

/-- The AirportData view returned by a lookup (services/airport.ts). -/
structure AirportData where
  elevation : ElevationView
  name : String
  city : Option String
  state : Option String
  coordinates : Option Coordinates
deriving DecidableEq

/-- The AirportData record built from a matched dataset record: elevation in
feet and rounded meters, and the coordinates always populated. -/
def mkAirportData (airport : BrazilianAirport) : AirportData :=
  { elevation := { feet := airport.elevation
                   meters := roundJs (airport.elevation * fin (3048 / 10000)) }
    name := airport.name
    city := some airport.city
    state := some airport.state
    coordinates := some { lat := airport.lat, lon := airport.lon } }

/-- Assignment to a JavaScript object property: overwrite the value at an
existing key, or append a new key-value pair. -/
def insertKey : List (String × BrazilianAirport) → String → BrazilianAirport →
    List (String × BrazilianAirport)
  | [], k, v => [(k, v)]
  | (k₁, v₁) :: rest, k, v =>
      if k₁ = k then (k, v) :: rest else (k₁, v₁) :: insertKey rest k v

/-- The airportMap of services/airport.ts: one forEach pass assigning each
record under its uppercased code. -/
def buildAirportMap (data : List BrazilianAirport) : List (String × BrazilianAirport) :=
  data.foldl (fun m airport => insertKey m (jsToUpper airport.icao) airport) []

/-- Property read on the JavaScript object modelled as a key-value list. -/
def lookupKey : List (String × BrazilianAirport) → String → Option BrazilianAirport
  | [], _ => none
  | (k₁, v₁) :: rest, key => if k₁ = key then some v₁ else lookupKey rest key

/-- getAirportData of services/airport.ts: read the precomputed map at the
uppercased identifier; null when absent, else the AirportData view. -/
def getAirportData (data : List BrazilianAirport) (icao : String) : Option AirportData :=
  match lookupKey (buildAirportMap data) (jsToUpper icao) with
  | none => none
  | some airport => some (mkAirportData airport)

/-- getAirportData of the unnamed source file: a linear find comparing
uppercased codes; null when nothing matches, else the AirportData view. -/
def getAirportDataLinear (data : List BrazilianAirport) (icao : String) : Option AirportData :=
  match data.find? (fun airport => jsToUpper airport.icao == jsToUpper icao) with
  | none => none
  | some airport => some (mkAirportData airport)

/-- The Airport record the App builds from a successful lookup
(App.tsx lines 197 to 204). -/
def mkAppAirport (icao : String) (d : AirportData) : Airport :=
  { icao := jsToUpper icao
    elevation := d.elevation.feet
    name := some d.name
    city := d.city
    state := d.state
    coordinates := d.coordinates }

/-- The SBGR record of data/brazilian-airports.ts. -/
def sbgr : BrazilianAirport :=
  { icao := "SBGR"
    iata := "GRU"
    name := "Aeroporto Internacional de São Paulo/Guarulhos"
    city := "Guarulhos"
    state := "SP"
    elevation := fin 2459
    lat := fin (-23435556 / 1000000)
    lon := fin (-46473056 / 1000000) }

/-- The SBBR record of data/brazilian-airports.ts. -/
def sbbr : BrazilianAirport :=
  { icao := "SBBR"
    iata := "BSB"
    name := "Aeroporto Internacional Presidente Juscelino Kubitschek"
    city := "Brasília"
    state := "DF"
    elevation := fin 3497
    lat := fin (-15869167 / 1000000)
    lon := fin (-47920833 / 1000000) }

/-- The SBGL record of data/brazilian-airports.ts. -/
def sbgl : BrazilianAirport :=
  { icao := "SBGL"
    iata := "GIG"
    name := "Aeroporto Internacional do Rio de Janeiro/Galeão"
    city := "Rio de Janeiro"
    state := "RJ"
    elevation := fin 28
    lat := fin (-22808889 / 1000000)
    lon := fin (-43243611 / 1000000) }

/-- The record list of data/brazilian-airports.ts, used as a concrete
dataset. -/
def brazilianAirports : List BrazilianAirport := [sbgr, sbbr, sbgl]

/-- A Math interpretation used for concrete evaluations: its values at the
arguments arising below agree with the JavaScript Math object (sine and
arcsine of zero are zero, cosine of zero is one, the square root of zero is
zero). -/
def zeroMath : MathOps :=
  { pi := fin 0
    sin := fun _ => fin 0
    cos := fun _ => fin 1
    asin := fun _ => fin 0
    sqrt := fun _ => fin 0 }

/-- An airport at elevation zero positioned at the origin. -/
def airportOrigin : Airport :=
  { icao := "AAAA"
    elevation := fin 0
    name := none
    city := none
    state := none
    coordinates := some { lat := fin 0, lon := fin 0 } }

/-- A state whose departure and arrival coincide, so that the great-circle
distance is zero while the climb and descent distances are positive. -/
def negCruiseState : AppState :=
  { speedUnit := SpeedUnit.kt
    rateUnit := RateUnit.ftmin
    inputs := { cruiseAltitude := some (fin 10000)
                climbSpeed := some (fin 100)
                cruiseSpeed := some (fin 450)
                descentSpeed := some (fin 100)
                climbRate := some (fin 1000)
                descentRate := some (fin 1000)
                departureIcao := ""
                arrivalIcao := "" }
    departure := some airportOrigin
    arrival := some airportOrigin }

/-- A state in which each phase lasts 0.4 minutes, so that the per-phase
minutes all round to zero while the total of 1.2 minutes rounds to one. -/
def roundDriftState : AppState :=
  { speedUnit := SpeedUnit.kt
    rateUnit := RateUnit.ftmin
    inputs := { cruiseAltitude := some (fin (2 / 5))
                climbSpeed := some (fin 0)
                cruiseSpeed := some (fin 15000)
                descentSpeed := some (fin 0)
                climbRate := some (fin 1)
                descentRate := some (fin 1)
                departureIcao := ""
                arrivalIcao := "" }
    departure := none
    arrival := none }

/-- The flight parameters of the acceptance example in the specification. -/
def sampleInputs : FlightInputs :=
  { cruiseAltitude := some (fin 35000)
    climbSpeed := some (fin 250)
    cruiseSpeed := some (fin 450)
    descentSpeed := some (fin 280)
    climbRate := some (fin 2000)
    descentRate := some (fin 1500)
    departureIcao := "SBGR"
    arrivalIcao := "SBGL" }

/-- The SBGR to SBGL state with both airports looked up. -/
def sampleState : AppState :=
  { speedUnit := SpeedUnit.kt
    rateUnit := RateUnit.ftmin
    inputs := sampleInputs
    departure := some (mkAppAirport "SBGR" (mkAirportData sbgr))
    arrival := some (mkAppAirport "SBGL" (mkAirportData sbgl)) }

/-- The same parameters with no airport data at all. -/
def sampleStateNoCoords : AppState :=
  { speedUnit := SpeedUnit.kt
    rateUnit := RateUnit.ftmin
    inputs := sampleInputs
    departure := none
    arrival := none }

namespace JsNum

@[simp] theorem fin_add_fin (a b : ℚ) : fin a + fin b = fin (a + b) := rfl

@[simp] theorem fin_mul_fin (a b : ℚ) : fin a * fin b = fin (a * b) := rfl

@[simp] theorem fin_sub_fin (a b : ℚ) : fin a - fin b = fin (a - b) := by
  show add (fin a) (neg (fin b)) = fin (a - b)
  rw [neg, add, sub_eq_add_neg]

@[simp] theorem fin_div_fin (a b : ℚ) (h : b ≠ 0) : fin a / fin b = fin (a / b) := by
  show div (fin a) (fin b) = fin (a / b)
  rw [div, if_neg h]

@[simp] theorem inf_mul_fin (p : Bool) (b : ℚ) :
    inf p * fin b = if b = 0 then nan else inf (p == decide (0 < b)) := rfl

@[simp] theorem fin_mul_inf (a : ℚ) (p : Bool) :
    fin a * inf p = if a = 0 then nan else inf (p == decide (0 < a)) := rfl

@[simp] theorem inf_mul_inf (p q : Bool) : inf p * inf q = inf (p == q) := rfl

@[simp] theorem nan_mul (x : JsNum) : nan * x = nan := by cases x <;> rfl

@[simp] theorem mul_nan (x : JsNum) : x * nan = nan := by cases x <;> rfl

@[simp] theorem isFinite_fin (a : ℚ) : (fin a).isFinite = true := rfl

@[simp] theorem isFinite_nan : (nan : JsNum).isFinite = false := rfl

@[simp] theorem isFinite_inf (p : Bool) : (inf p).isFinite = false := rfl

@[simp] theorem roundJs_fin (a : ℚ) : roundJs (fin a) = fin ((⌊a + 1/2⌋ : ℤ) : ℚ) := rfl

@[simp] theorem isNeg_fin (a : ℚ) : (fin a).isNeg = decide (a < 0) := rfl

end JsNum

/-- C1: for every Math interpretation and state, the unrounded total distance
is the haversine great-circle distance with Earth radius 3440.065 nautical
miles when both airport positions are known, and is exactly top-of-climb
distance plus top-of-descent distance plus 100 nautical miles when at least
one position is unknown. -/
theorem total_distance_correct (M : MathOps) (s : AppState) :
    (∀ dep arr, coordsOf s.departure = some dep → coordsOf s.arrival = some arr →
        totalDistance M s = specHaversine M dep arr) ∧
    (coordsOf s.departure = none ∨ coordsOf s.arrival = none →
        totalDistance M s = tocDistance s + todDistance s + fin 100) := by
  constructor
  · intro dep arr h₁ h₂
    simp only [totalDistance, h₁, h₂, specHaversine]
  · intro h
    cases hd : coordsOf s.departure with
    | none => cases ha : coordsOf s.arrival <;> simp only [totalDistance, hd, ha]
    | some dep =>
        cases ha : coordsOf s.arrival with
        | none => simp only [totalDistance, hd, ha]
        | some arr => rcases h with h | h <;> simp_all

/-- Witness for C1 at the SBGR to SBGL sample state (haversine branch) and at
the state with no airport data (padded fallback branch). -/
theorem total_distance_correct_witness :
    totalDistance zeroMath sampleState =
      specHaversine zeroMath { lat := sbgr.lat, lon := sbgr.lon }
        { lat := sbgl.lat, lon := sbgl.lon } ∧
    totalDistance zeroMath sampleStateNoCoords =
      tocDistance sampleStateNoCoords + todDistance sampleStateNoCoords + fin 100 :=
  ⟨(total_distance_correct zeroMath sampleState).1 _ _ rfl rfl,
   (total_distance_correct zeroMath sampleStateNoCoords).2 (Or.inl rfl)⟩

/-- C2: the three result distances are the unrounded distances rounded to one
decimal place, each phase time is the unrounded hours times 60 rounded to a
whole minute, the total time is the rounding of the sum of the unrounded
hours times 60, and that total can differ from the sum of the already-rounded
per-phase minutes. -/
theorem results_rounding :
    (∀ (M : MathOps) (s : AppState) (q : ℚ), tocDistance s = fin q →
        (calculateResults M s).tocDistance = fin (((⌊q * 10 + 1/2⌋ : ℤ) : ℚ) / 10)) ∧
    (∀ (M : MathOps) (s : AppState) (q : ℚ), todDistance s = fin q →
        (calculateResults M s).todDistance = fin (((⌊q * 10 + 1/2⌋ : ℤ) : ℚ) / 10)) ∧
    (∀ (M : MathOps) (s : AppState) (q : ℚ), totalDistance M s = fin q →
        (calculateResults M s).totalDistance = fin (((⌊q * 10 + 1/2⌋ : ℤ) : ℚ) / 10)) ∧
    (∀ (M : MathOps) (s : AppState) (q : ℚ), climbTimeHours s = fin q →
        (calculateResults M s).climbTime = fin ((⌊q * 60 + 1/2⌋ : ℤ) : ℚ)) ∧
    (∀ (M : MathOps) (s : AppState) (q : ℚ), cruiseTimeHours M s = fin q →
        (calculateResults M s).cruiseTime = fin ((⌊q * 60 + 1/2⌋ : ℤ) : ℚ)) ∧
    (∀ (M : MathOps) (s : AppState) (q : ℚ), descentTimeHours s = fin q →
        (calculateResults M s).descentTime = fin ((⌊q * 60 + 1/2⌋ : ℤ) : ℚ)) ∧
    (∀ (M : MathOps) (s : AppState) (q₁ q₂ q₃ : ℚ),
        climbTimeHours s = fin q₁ → cruiseTimeHours M s = fin q₂ →
        descentTimeHours s = fin q₃ →
        (calculateResults M s).totalTime = fin ((⌊(q₁ + q₂ + q₃) * 60 + 1/2⌋ : ℤ) : ℚ)) ∧
    (∃ (M : MathOps) (s : AppState),
        (calculateResults M s).totalTime ≠
          (calculateResults M s).climbTime + (calculateResults M s).cruiseTime +
            (calculateResults M s).descentTime) := by
  refine ⟨?_, ?_, ?_, ?_, ?_, ?_, ?_, ?_⟩
  · intro M s q h; norm_num [calculateResults, h]
  · intro M s q h; norm_num [calculateResults, h]
  · intro M s q h; norm_num [calculateResults, h]
  · intro M s q h; norm_num [calculateResults, h]
  · intro M s q h; norm_num [calculateResults, h]
  · intro M s q h; norm_num [calculateResults, h]
  · intro M s q₁ q₂ q₃ h₁ h₂ h₃; norm_num [calculateResults, h₁, h₂, h₃]
  · refine ⟨zeroMath, roundDriftState, ?_⟩
    norm_num [calculateResults, cruiseTimeHours, cruiseDistance, totalDistance,
      tocDistance, todDistance, climbTimeHours, descentTimeHours, climbHeight,
      descentHeight, climbSpeedKt, cruiseSpeedKt, descentSpeedKt, climbRateFtMin,
      descentRateFtMin, convertSpeed, convertRate, toKnots, fromKnots, coordsOf,
      elevOrZero, roundDriftState, Int.floor_eq_iff]

/-- Witness for C2 at the round-drift state: the top-of-climb distance of the
result is the one-decimal rounding of the unrounded value, and the total time
is the rounding of the unrounded hour sum times 60. -/
theorem results_rounding_witness :
    (calculateResults zeroMath roundDriftState).tocDistance =
      fin (((⌊(0 : ℚ) * 10 + 1/2⌋ : ℤ) : ℚ) / 10) ∧
    (calculateResults zeroMath roundDriftState).totalTime =
      fin ((⌊((1/150 : ℚ) + 1/150 + 1/150) * 60 + 1/2⌋ : ℤ) : ℚ) := by
  have htoc : tocDistance roundDriftState = fin 0 := by
    norm_num [tocDistance, climbTimeHours, climbHeight, climbSpeedKt, climbRateFtMin,
      convertSpeed, convertRate, toKnots, fromKnots, elevOrZero, roundDriftState]
  have hclimb : climbTimeHours roundDriftState = fin (1/150) := by
    norm_num [climbTimeHours, climbHeight, climbRateFtMin, convertRate, elevOrZero,
      roundDriftState]
  have hdescent : descentTimeHours roundDriftState = fin (1/150) := by
    norm_num [descentTimeHours, descentHeight, descentRateFtMin, convertRate, elevOrZero,
      roundDriftState]
  have hcruise : cruiseTimeHours zeroMath roundDriftState = fin (1/150) := by
    norm_num [cruiseTimeHours, cruiseDistance, totalDistance, tocDistance, todDistance,
      climbTimeHours, descentTimeHours, climbHeight, descentHeight, climbSpeedKt,
      cruiseSpeedKt, descentSpeedKt, climbRateFtMin, descentRateFtMin, convertSpeed,
      convertRate, toKnots, fromKnots, coordsOf, elevOrZero, roundDriftState]
  exact ⟨results_rounding.1 zeroMath roundDriftState 0 htoc,
         (results_rounding.2.2.2.2.2.2.1) zeroMath roundDriftState _ _ _ hclimb hcruise hdescent⟩

/-- C3: the unrounded cruise distance is the total distance minus the sum of
the top-of-climb and top-of-descent distances, with no clamping: on a state
whose climb and descent distances exceed the total distance, the cruise
distance and the cruise time are negative. -/
theorem cruise_distance_unclamped :
    (∀ (M : MathOps) (s : AppState),
        cruiseDistance M s = totalDistance M s - (tocDistance s + todDistance s)) ∧
    (∃ (M : MathOps) (s : AppState),
        (cruiseDistance M s).isNeg = true ∧ (cruiseTimeHours M s).isNeg = true) := by
  refine ⟨fun M s => rfl, zeroMath, negCruiseState, ?_, ?_⟩
  · norm_num [cruiseDistance, totalDistance, tocDistance, todDistance, climbTimeHours,
      descentTimeHours, climbHeight, descentHeight, climbSpeedKt, descentSpeedKt,
      climbRateFtMin, descentRateFtMin, convertSpeed, convertRate, toKnots, fromKnots,
      coordsOf, elevOrZero, JsNum.orZeroFalsy, JsNum.sq, negCruiseState, airportOrigin,
      zeroMath]
  · norm_num [cruiseTimeHours, cruiseDistance, totalDistance, tocDistance, todDistance,
      climbTimeHours, descentTimeHours, climbHeight, descentHeight, climbSpeedKt,
      cruiseSpeedKt, descentSpeedKt, climbRateFtMin, descentRateFtMin, convertSpeed,
      convertRate, toKnots, fromKnots, coordsOf, elevOrZero, JsNum.orZeroFalsy,
      JsNum.sq, negCruiseState, airportOrigin, zeroMath]

/-- C8: the calculation is deterministic: with the same Math object, equal
states (inputs, unit selections, and looked-up airports) produce equal
results. -/
theorem calculation_deterministic (M : MathOps) (s₁ s₂ : AppState) (h : s₁ = s₂) :
    calculateResults M s₁ = calculateResults M s₂ := by rw [h]

/-- Witness for C8 at the sample state. -/
theorem calculation_deterministic_witness :
    calculateResults zeroMath sampleState = calculateResults zeroMath sampleState :=
  calculation_deterministic zeroMath sampleState sampleState rfl

/-- C4 counterexample: converting 1 from mph to mph multiplies by
0.868976 times 1.15078, which is 1.00000020128, so the result is not 1. -/
theorem convertSpeed_self_not_identity :
    convertSpeed (fin 1) SpeedUnit.mph SpeedUnit.mph ≠ fin 1 := by
  norm_num [convertSpeed, toKnots, fromKnots]

/-- C4 amended: on finite values, identity conversion is exact for the rate
converter on every unit and for the speed converter on knots; for mph and
kmh self-conversion the speed converter instead multiplies by the composite
factor 1.00000020128 respectively 1.000000364, which is not 1. -/
theorem convert_self_amended (v : JsNum) (h : v.isFinite = true) :
    (∀ u : RateUnit, convertRate v u u = v) ∧
    convertSpeed v SpeedUnit.kt SpeedUnit.kt = v ∧
    convertSpeed v SpeedUnit.mph SpeedUnit.mph = v * fin (100000020128 / 100000000000) ∧
    convertSpeed v SpeedUnit.kmh SpeedUnit.kmh = v * fin (1000000364 / 1000000000) := by
  cases v with
  | fin q =>
      refine ⟨fun u => by simp [convertRate], ?_, ?_, ?_⟩
      · norm_num [convertSpeed, toKnots, fromKnots]
      · norm_num [convertSpeed, toKnots, fromKnots]
        ring
      · norm_num [convertSpeed, toKnots, fromKnots]
        ring
  | nan => simp [JsNum.isFinite] at h
  | inf p => simp [JsNum.isFinite] at h

/-- Witness for C4 amended at the value 7. -/
theorem convert_self_amended_witness :
    convertRate (fin 7) RateUnit.ms RateUnit.ms = fin 7 ∧
    convertSpeed (fin 7) SpeedUnit.kt SpeedUnit.kt = fin 7 :=
  ⟨(convert_self_amended (fin 7) rfl).1 RateUnit.ms,
   (convert_self_amended (fin 7) rfl).2.1⟩

/-- C5: on every finite input both conversions return finite values, and
whenever the underlying arithmetic would produce a non-finite value the
conversion returns zero instead (for the rate conversion, on distinct units;
identical rate units perform no arithmetic at all). -/
theorem conversions_guarded (v : JsNum) (su tu : SpeedUnit) (ru wu : RateUnit) :
    (v.isFinite = true →
        (convertSpeed v su tu).isFinite = true ∧ (convertRate v ru wu).isFinite = true) ∧
    ((v * toKnots su * fromKnots tu).isFinite = false → convertSpeed v su tu = fin 0) ∧
    (ru ≠ wu →
        (if ru = RateUnit.ftmin ∧ wu = RateUnit.ms then v * fin (508 / 100000)
         else v * fin (19685 / 100)).isFinite = false →
        convertRate v ru wu = fin 0) := by
  refine ⟨?_, ?_, ?_⟩
  · intro hv
    cases v with
    | fin q =>
        constructor
        · cases su <;> cases tu <;> simp [convertSpeed, toKnots, fromKnots]
        · by_cases h : ru = wu
          · simp [convertRate, h]
          · cases ru <;> cases wu <;> simp_all [convertRate]
    | nan => simp [JsNum.isFinite] at hv
    | inf p => simp [JsNum.isFinite] at hv
  · intro h
    simp [convertSpeed, h]
  · intro hne h
    simp [convertRate, hne, h]

/-- Witness for C5: a finite conversion is finite, and infinite inputs are
guarded to zero by both converters. -/
theorem conversions_guarded_witness :
    (convertSpeed (fin 7) SpeedUnit.kt SpeedUnit.mph).isFinite = true ∧
    convertSpeed (inf true) SpeedUnit.kt SpeedUnit.kt = fin 0 ∧
    convertRate (inf true) RateUnit.ftmin RateUnit.ms = fin 0 :=
  ⟨((conversions_guarded (fin 7) SpeedUnit.kt SpeedUnit.mph RateUnit.ftmin RateUnit.ms).1
      rfl).1,
   (conversions_guarded (inf true) SpeedUnit.kt SpeedUnit.kt RateUnit.ftmin
      RateUnit.ms).2.1 (by norm_num [toKnots, fromKnots, JsNum.mul, JsNum.isFinite]),
   (conversions_guarded (inf true) SpeedUnit.kt SpeedUnit.kt RateUnit.ftmin
      RateUnit.ms).2.2 (by decide) (by norm_num [JsNum.mul, JsNum.isFinite])⟩

/-- C9: the identity short-circuit of the rate conversion bypasses the
non-finite guard: a NaN or infinite value converted to the same rate unit is
returned as is, while the speed conversion maps every non-finite input to
zero for every unit pair, identical units included. -/
theorem rate_identity_bypasses_guard (v : JsNum) (h : v.isFinite = false) :
    (∀ u : RateUnit, convertRate v u u = v) ∧
    (∀ su tu : SpeedUnit, convertSpeed v su tu = fin 0) := by
  constructor
  · intro u
    simp [convertRate]
  · intro su tu
    cases v with
    | fin q => simp [JsNum.isFinite] at h
    | nan => cases su <;> cases tu <;> rfl
    | inf p =>
        cases su <;> cases tu <;>
          norm_num [convertSpeed, toKnots, fromKnots, JsNum.mul, JsNum.isFinite]

/-- Witness for C9 at NaN: the rate converter returns NaN itself for equal
units, the speed converter returns zero. -/
theorem rate_identity_bypasses_guard_witness :
    convertRate nan RateUnit.ftmin RateUnit.ftmin = nan ∧
    convertSpeed nan SpeedUnit.kt SpeedUnit.kt = fin 0 :=
  ⟨(rate_identity_bypasses_guard nan rfl).1 RateUnit.ftmin,
   (rate_identity_bypasses_guard nan rfl).2 SpeedUnit.kt SpeedUnit.kt⟩

/-- Reading a key after an overwriting insertion: the inserted key yields the
inserted value, every other key reads as before. -/
theorem lookupKey_insertKey (m : List (String × BrazilianAirport)) (k key : String)
    (v : BrazilianAirport) :
    lookupKey (insertKey m k v) key = if k = key then some v else lookupKey m key := by
  induction m with
  | nil => simp [insertKey, lookupKey]
  | cons p rest ih =>
      obtain ⟨k₁, v₁⟩ := p
      by_cases h₁ : k₁ = k
      · subst h₁
        by_cases h₂ : k₁ = key <;> simp [insertKey, lookupKey, h₂]
      · by_cases h₂ : k₁ = key
        · subst h₂
          have hne : ¬k = k₁ := fun e => h₁ e.symm
          simp [insertKey, lookupKey, h₁, hne]
        · simp [insertKey, lookupKey, h₁, h₂, ih]

/-- If no record of the remaining list carries the key and the accumulated
map does not contain it either, the built map does not contain it. -/
theorem lookupKey_build_none (l : List BrazilianAirport)
    (m : List (String × BrazilianAirport)) (key : String)
    (hm : lookupKey m key = none) (hl : ∀ a ∈ l, jsToUpper a.icao ≠ key) :
    lookupKey (l.foldl (fun acc a => insertKey acc (jsToUpper a.icao) a) m) key = none := by
  induction l generalizing m with
  | nil => simpa using hm
  | cons a l ih =>
      simp only [List.foldl_cons]
      refine ih _ ?_ fun b hb => hl b (List.mem_cons_of_mem _ hb)
      rw [lookupKey_insertKey, if_neg (hl a (List.mem_cons_self a l))]
      exact hm

/-- When the uppercased codes of the list are pairwise distinct, reading the
built map at a key finds the first (and only) record with that code, falling
back to the accumulated map. -/
theorem lookupKey_build_nodup (l : List BrazilianAirport)
    (m : List (String × BrazilianAirport)) (key : String)
    (hnd : (l.map fun a => jsToUpper a.icao).Nodup) :
    lookupKey (l.foldl (fun acc a => insertKey acc (jsToUpper a.icao) a) m) key =
      match l.find? (fun a => jsToUpper a.icao == key) with
      | some a => some a
      | none => lookupKey m key := by
  induction l generalizing m with
  | nil => simp [List.find?]
  | cons a l ih =>
      simp only [List.map_cons, List.nodup_cons] at hnd
      obtain ⟨hna, hnd⟩ := hnd
      simp only [List.foldl_cons]
      rw [ih _ hnd]
      by_cases h : jsToUpper a.icao = key
      · have hfind : l.find? (fun b => jsToUpper b.icao == key) = none := by
          rw [List.find?_eq_none]
          intro b hb
          simp only [beq_iff_eq]
          intro he
          exact hna (h ▸ he ▸ List.mem_map_of_mem _ hb)
        rw [hfind, List.find?_cons_of_pos _ (by simpa using h)]
        simp [lookupKey_insertKey, h]
      · rw [List.find?_cons_of_neg _ (by simpa using h)]
        cases hf : l.find? fun b => jsToUpper b.icao == key with
        | none => simp [lookupKey_insertKey, h]
        | some b => simp

/-- C6: the map-based lookup is case-insensitive — identifiers with the same
uppercasing give the same result — and an identifier matching no record
yields the not-found value, not an error. -/
theorem lookup_case_insensitive :
    (∀ (data : List BrazilianAirport) (s t : String), jsToUpper s = jsToUpper t →
        getAirportData data s = getAirportData data t) ∧
    (∀ (data : List BrazilianAirport) (s : String),
        (∀ a ∈ data, jsToUpper a.icao ≠ jsToUpper s) →
        getAirportData data s = none) := by
  constructor
  · intro data s t h
    unfold getAirportData
    rw [h]
  · intro data s h
    unfold getAirportData buildAirportMap
    rw [lookupKey_build_none data [] (jsToUpper s) rfl h]

/-- Witness for C6: the lowercase and mixed-case spellings of SBGR agree on
the sample dataset, and an unknown code is not found. -/
theorem lookup_case_insensitive_witness :
    getAirportData brazilianAirports "sbgr" = getAirportData brazilianAirports "SbGr" ∧
    getAirportData brazilianAirports "XXXX" = none :=
  ⟨lookup_case_insensitive.1 brazilianAirports "sbgr" "SbGr" (by decide),
   lookup_case_insensitive.2 brazilianAirports "XXXX" (by decide)⟩

/-- C7: on a dataset whose case-normalized codes are pairwise distinct — the
specification expects exactly one record per valid code — the precomputed-map
lookup and the linear-scan lookup agree on every identifier. -/
theorem lookup_impls_agree (data : List BrazilianAirport)
    (hnd : (data.map fun a => jsToUpper a.icao).Nodup) (icao : String) :
    getAirportData data icao = getAirportDataLinear data icao := by
  unfold getAirportData getAirportDataLinear buildAirportMap
  rw [lookupKey_build_nodup data [] (jsToUpper icao) hnd]
  cases h : data.find? fun a => jsToUpper a.icao == jsToUpper icao <;> simp [lookupKey]

/-- Witness for C7 on the sample dataset with a lowercase identifier. -/
theorem lookup_impls_agree_witness :
    getAirportData brazilianAirports "sbgr" = getAirportDataLinear brazilianAirports "sbgr" :=
  lookup_impls_agree brazilianAirports (by decide) "sbgr"

/-- C10: every successful lookup carries a coordinates value, and therefore a
state whose two airports both come from successful lookups takes the
haversine branch of the total-distance computation. -/
theorem lookup_always_has_coordinates :
    (∀ (data : List BrazilianAirport) (icao : String) (r : AirportData),
        getAirportData data icao = some r → ∃ c, r.coordinates = some c) ∧
    (∀ (M : MathOps) (su : SpeedUnit) (ru : RateUnit) (inp : FlightInputs)
        (data : List BrazilianAirport) (dIcao aIcao : String) (rd ra : AirportData),
        getAirportData data dIcao = some rd → getAirportData data aIcao = some ra →
        ∃ cd ca, rd.coordinates = some cd ∧ ra.coordinates = some ca ∧
          totalDistance M
              { speedUnit := su, rateUnit := ru, inputs := inp,
                departure := some (mkAppAirport dIcao rd),
                arrival := some (mkAppAirport aIcao ra) } =
            specHaversine M cd ca) := by
  have key : ∀ (data : List BrazilianAirport) (icao : String) (r : AirportData),
      getAirportData data icao = some r → ∃ c, r.coordinates = some c := by
    intro data icao r h
    unfold getAirportData at h
    cases hk : lookupKey (buildAirportMap data) (jsToUpper icao) with
    | none => rw [hk] at h; exact absurd h (by simp)
    | some airport =>
        rw [hk] at h
        have hr : mkAirportData airport = r := by injection h
        exact ⟨{ lat := airport.lat, lon := airport.lon }, hr ▸ rfl⟩
  refine ⟨key, ?_⟩
  intro M su ru inp data dIcao aIcao rd ra hd ha
  obtain ⟨cd, hcd⟩ := key data dIcao rd hd
  obtain ⟨ca, hca⟩ := key data aIcao ra ha
  refine ⟨cd, ca, hcd, hca, ?_⟩
  simp only [totalDistance, coordsOf, mkAppAirport, hcd, hca, specHaversine]

/-- Witness for C10 at the SBGR and SBGL lookups over the sample dataset. -/
theorem lookup_always_has_coordinates_witness :
    ∃ cd ca, (mkAirportData sbgr).coordinates = some cd ∧
      (mkAirportData sbgl).coordinates = some ca ∧
      totalDistance zeroMath
          { speedUnit := SpeedUnit.kt, rateUnit := RateUnit.ftmin, inputs := sampleInputs,
            departure := some (mkAppAirport "SBGR" (mkAirportData sbgr)),
            arrival := some (mkAppAirport "SBGL" (mkAirportData sbgl)) } =
        specHaversine zeroMath cd ca :=
  lookup_always_has_coordinates.2 zeroMath SpeedUnit.kt RateUnit.ftmin sampleInputs
    brazilianAirports "SBGR" "SBGL" (mkAirportData sbgr) (mkAirportData sbgl) rfl rfl

end TocTod
